import Mathlib

/-!
Shallow embedding of the ETL pipeline in src/etl (transform.py, load.py,
flow.py) of the repository ambiente-etl-cdmx, together with theorems that
settle the specification claims about it.

Conventions of the embedding:
* JSON payloads are modelled by the inductive type Json; Python item access
  data[k] is modelled by getItem, which distinguishes a missing key on a
  dict (KeyError, in Python) from indexing a non-dict value with a string
  key (TypeError, in Python).
* A pandas DataFrame of measurement rows is modelled as a List Registro.
* External effects (the outcome of df.to_sql, df.to_csv, df.to_parquet
  against the environment) are passed in as explicit Except-valued
  parameters; each modelled function returns a record of its observable
  behaviour: what it printed, what it returned, what exception (if any)
  propagated to its caller, and which rows or files were written.
* pd.to_datetime is abstracted: the record field fecha_hora holds the raw
  ts value taken from the payload, since no claim depends on timestamp
  parsing itself.
-/

mutual
/-- A JSON-like Python value, as navigated by transformar_datos. -/
inductive Json where
  | null
  | str (s : String)
  | num (n : Int)
  | obj (fields : JsonFields)
deriving DecidableEq, Repr

/-- The key-value fields of a JSON object (a Python dict). -/
inductive JsonFields where
  | nil
  | cons (k : String) (v : Json) (rest : JsonFields)
deriving DecidableEq, Repr
end

/-- First value bound to a key in a dict, if any. -/
def JsonFields.lookup : JsonFields → String → Option Json
  | .nil, _ => none
  | .cons k v rest, key => if k = key then some v else rest.lookup key

/-- The Python exceptions relevant to the navigation in transformar_datos:
a KeyError carrying the missing key, or a TypeError from indexing a
non-dict value with a string key. -/
inductive PyErr where
  | keyError (clave : String)
  | typeError
deriving DecidableEq, Repr

/-- Python item access data[k] for a string key: on a dict it returns the
value or raises KeyError k; on any other value it raises TypeError. -/
def getItem (data : Json) (k : String) : Except PyErr Json :=
  match data with
  | .obj fs =>
    match fs.lookup k with
    | some v => Except.ok v
    | none => Except.error (PyErr.keyError k)
  | _ => Except.error PyErr.typeError

/-- One normalized measurement row, as built by transformar_datos
(src/etl/transform.py lines 62-72). Field values are copied verbatim from
the payload; fecha_hora holds the raw ts value (pd.to_datetime abstracted). -/
structure Registro where
  ciudad : Json
  pais : Json
  fecha_hora : Json
  aqi_us : Json
  aqi_cn : Json
  contaminante_principal : Json
  temperatura_c : Json
  humedad_pct : Json
  viento_mps : Json
deriving DecidableEq, Repr

/-- The try-block of transformar_datos (src/etl/transform.py lines 51-75):
navigate the fixed key path of the payload and build the single record,
with item accesses in the order the source performs them. -/
def navegar (data : Json) : Except PyErr Registro := do
  let d ← getItem data "data"
  let ciudad ← getItem d "city"
  let pais ← getItem d "country"
  let current ← getItem d "current"
  let contaminacion ← getItem current "pollution"
  let ts ← getItem contaminacion "ts"
  let clima ← getItem current "weather"
  let aqius ← getItem contaminacion "aqius"
  let aqicn ← getItem contaminacion "aqicn"
  let mainus ← getItem contaminacion "mainus"
  let tp ← getItem clima "tp"
  let hu ← getItem clima "hu"
  let ws ← getItem clima "ws"
  return { ciudad := ciudad, pais := pais, fecha_hora := ts, aqi_us := aqius, aqi_cn := aqicn,
           contaminante_principal := mainus, temperatura_c := tp, humedad_pct := hu,
           viento_mps := ws }

/-- transformar_datos (src/etl/transform.py lines 40-80): on success a
one-row batch and no diagnostic; a KeyError is caught and converted to an
empty batch plus a printed diagnostic naming the missing key (modelled by
the Option String component); any other exception propagates uncaught. -/
def transformar_datos (data : Json) : Except PyErr (List Registro × Option String) :=
  match navegar data with
  | Except.ok r => Except.ok ([r], none)
  | Except.error (PyErr.keyError k) => Except.ok ([], some k)
  | Except.error PyErr.typeError => Except.error PyErr.typeError

/-- The deduplication key of drop_duplicates(subset=["fecha_hora", "ciudad"])
in limpiar_y_validar (src/etl/transform.py line 94). -/
def clave (r : Registro) : Json × Json := (r.fecha_hora, r.ciudad)

/-- Pandas drop_duplicates with keep="first": keep a row when its key has
not been seen earlier in the batch. -/
def dedupAux (vistos : List (Json × Json)) : List Registro → List Registro
  | [] => []
  | r :: rs =>
    if clave r ∈ vistos then dedupAux vistos rs
    else r :: dedupAux (clave r :: vistos) rs

/-- df.drop_duplicates(subset=["fecha_hora", "ciudad"]) as called in
limpiar_y_validar. -/
def drop_duplicates (df : List Registro) : List Registro := dedupAux [] df

/-- Pandas isnull on a single cell: only the null value counts as null. -/
def esNulo : Json → Bool
  | .null => true
  | _ => false

/-- The message of the ValueError raised by limpiar_y_validar. -/
def msgIncompletos : String := "Datos incompletos detectados en AQI o temperatura"

/-- limpiar_y_validar (src/etl/transform.py lines 83-101): an empty batch
is returned as is; otherwise duplicates on (fecha_hora, ciudad) are
dropped, then a ValueError is raised when any surviving aqi_us or
temperatura_c is null, else the cleaned batch is returned. -/
def limpiar_y_validar (df : List Registro) : Except String (List Registro) :=
  if df.isEmpty then Except.ok df
  else
    if (drop_duplicates df).any (fun r => esNulo r.aqi_us) ||
        (drop_duplicates df).any (fun r => esNulo r.temperatura_c) then
      Except.error msgIncompletos
    else
      Except.ok (drop_duplicates df)

/-- Observable behaviour of one call to guardar_en_sql: the exception (if
any) propagated to the caller, the Python return value, the number of rows
appended to the table, and the message printed. -/
structure SqlRes where
  propagada : Option String
  retorno : Option Nat
  filasInsertadas : Nat
  impreso : String
deriving DecidableEq, Repr

/-- guardar_en_sql (src/etl/load.py lines 30-44): df.to_sql with
if_exists="append" is attempted (its outcome against the environment is
the parameter to_sql); any exception is caught and printed, never
re-raised, and the function body has no return statement, so the Python
return value is always None. -/
def guardar_en_sql (df : List Registro) (tabla : String) (to_sql : Except String Unit) : SqlRes :=
  match to_sql with
  | Except.ok _ =>
    { propagada := none, retorno := none, filasInsertadas := df.length,
      impreso := "Datos insertados en la tabla " ++ tabla }
  | Except.error e =>
    { propagada := none, retorno := none, filasInsertadas := 0,
      impreso := "Error al guardar en SQL: " ++ e }

/-- One output file: its path and the rows written to it. -/
structure Archivo where
  ruta : String
  filas : List Registro
deriving DecidableEq, Repr

/-- Observable behaviour of one call to exportar_csv_parquet: files
written, number of parquet write attempts, exception (if any) propagated
to the caller, message printed. -/
structure ExportRes where
  archivos : List Archivo
  intentosParquet : Nat
  propagada : Option String
  impreso : String
deriving DecidableEq, Repr

/-- exportar_csv_parquet (src/etl/load.py lines 46-67): the file names are
nombre ++ ".csv" and nombre ++ ".parquet" (no timestamp); inside a single
try-block, df.to_csv runs, then one df.to_parquet attempt with the default
engine (no fallback engine); any exception is caught and printed, never
re-raised. The outcomes of the two writes against the environment are the
parameters to_csv and to_parquet. -/
def exportar_csv_parquet (df : List Registro) (nombre : String)
    (to_csv to_parquet : Except String Unit) : ExportRes :=
  let ruta_csv := nombre ++ ".csv"
  let ruta_parquet := nombre ++ ".parquet"
  match to_csv with
  | Except.error e =>
    { archivos := [], intentosParquet := 0, propagada := none,
      impreso := "Error al exportar: " ++ e }
  | Except.ok _ =>
    match to_parquet with
    | Except.error e =>
      { archivos := [⟨ruta_csv, df⟩], intentosParquet := 1, propagada := none,
        impreso := "Error al exportar: " ++ e }
    | Except.ok _ =>
      { archivos := [⟨ruta_csv, df⟩, ⟨ruta_parquet, df⟩], intentosParquet := 1, propagada := none,
        impreso := "Datos exportados a: " ++ ruta_csv ++ " y " ++ ruta_parquet }

/-- Observable behaviour of guardar_datos_procesados apart from the
propagated exception: files written and the warning printed by the
except-branch of the pyarrow attempt. -/
structure ProcRes where
  archivos : List Archivo
  advertencia : Option String
deriving DecidableEq, Repr

/-- guardar_datos_procesados (src/etl/transform.py lines 104-129): the file
names are prefijo ++ "_" ++ ts ++ ".csv" and prefijo ++ "_" ++ ts ++
".parquet", where ts is datetime.now() (the local clock, not UTC) formatted
YYYYMMDD_HHMMSS, here a parameter. df.to_csv runs first, outside any
try-block (modelled as succeeding); then df.to_parquet with engine pyarrow
is tried, and on any exception a warning naming the pyarrow error is
printed and df.to_parquet with engine fastparquet is tried, whose exception
(if any) propagates to the caller (the second component of the result). -/
def guardar_datos_procesados (df : List Registro) (prefijo ts : String)
    (pyarrow fastparquet : Except String Unit) : ProcRes × Option String :=
  let ruta_csv := prefijo ++ "_" ++ ts ++ ".csv"
  let ruta_parquet := prefijo ++ "_" ++ ts ++ ".parquet"
  match pyarrow with
  | Except.ok _ =>
    ({ archivos := [⟨ruta_csv, df⟩, ⟨ruta_parquet, df⟩], advertencia := none }, none)
  | Except.error e1 =>
    match fastparquet with
    | Except.ok _ =>
      ({ archivos := [⟨ruta_csv, df⟩, ⟨ruta_parquet, df⟩],
         advertencia := some ("Error con pyarrow: " ++ e1 ++ ". Intentando con fastparquet...") },
       none)
    | Except.error e2 =>
      ({ archivos := [⟨ruta_csv, df⟩],
         advertencia := some ("Error con pyarrow: " ++ e1 ++ ". Intentando con fastparquet...") },
       some e2)

/-- tarea_transformar (src/etl/flow.py lines 24-29): when the path from
tarea_extraer is truthy (a non-empty string), the path itself, not the
decoded payload, is passed to transformar_datos; otherwise the task
returns None. -/
def tarea_transformar (ruta : Option String) :
    Except PyErr (Option (List Registro × Option String)) :=
  match ruta with
  | none => Except.ok none
  | some s =>
    if s = "" then Except.ok none
    else (transformar_datos (Json.str s)).map some

/-- tarea_cargar (src/etl/flow.py lines 32-40): when the dataframe is not
None and not empty, guardar_en_sql and exportar_csv_parquet run with table
and prefix "calidad_aire"; otherwise nothing is written and False is
returned. Result: (returned flag, rows appended, files written). -/
def tarea_cargar (df : Option (List Registro))
    (to_sql to_csv to_parquet : Except String Unit) : Bool × Nat × Nat :=
  match df with
  | none => (false, 0, 0)
  | some b =>
    if b.isEmpty then (false, 0, 0)
    else
      let s := guardar_en_sql b "calidad_aire" to_sql
      let ex := exportar_csv_parquet b "calidad_aire" to_csv to_parquet
      (true, s.filasInsertadas, ex.archivos.length)

/-- The pipeline stages; validar is the validation stage the specification
places between parse and sink (flow.py defines no task for it). -/
inductive Etapa where
  | extraer
  | transformar
  | validar
  | cargar
deriving DecidableEq, Repr

/-- Observable behaviour of one run of flujo_etl: which task bodies
executed (in order), rows appended to the table, files written, and the
exception (if any) that aborted the run. -/
structure Corrida where
  etapas : List Etapa
  filas : Nat
  archivos : Nat
  excepcion : Option PyErr
deriving DecidableEq, Repr

/-- flujo_etl (src/etl/flow.py lines 43-50): tarea_extraer runs (its
result, the saved raw-file path or None, is the parameter ruta, since the
fetch is an external collaborator); its result is fed to
tarea_transformar, whose result is fed to tarea_cargar. An exception in
tarea_transformar aborts the run before tarea_cargar. No task ever calls
limpiar_y_validar. -/
def flujo_etl (ruta : Option String)
    (to_sql to_csv to_parquet : Except String Unit) : Corrida :=
  match tarea_transformar ruta with
  | Except.error e =>
    { etapas := [Etapa.extraer, Etapa.transformar], filas := 0, archivos := 0,
      excepcion := some e }
  | Except.ok df =>
    let res := tarea_cargar (df.map Prod.fst) to_sql to_csv to_parquet
    { etapas := [Etapa.extraer, Etapa.transformar, Etapa.cargar], filas := res.2.1,
      archivos := res.2.2, excepcion := none }

/-- The pollution node of the example payload of the specification. -/
def camposContaminacion : JsonFields :=
  .cons "ts" (.str "2024-03-01T12:00:00.000Z")
    (.cons "aqius" (.num 55) (.cons "aqicn" (.num 20) (.cons "mainus" (.str "p2") .nil)))

/-- The weather node of the example payload of the specification. -/
def camposClima : JsonFields :=
  .cons "tp" (.num 21) (.cons "hu" (.num 40) (.cons "ws" (.num 3) .nil))

/-- A complete well-formed payload whose source city name is the alias
"Mexico City". -/
def payloadMexicoCity : Json :=
  .obj (.cons "data"
    (.obj (.cons "city" (.str "Mexico City") (.cons "country" (.str "Mexico")
      (.cons "current"
        (.obj (.cons "pollution" (.obj camposContaminacion)
          (.cons "weather" (.obj camposClima) .nil)))
        .nil))))
    .nil)

/-- The missing-key payload of the specification: data has city and
country but no current key. -/
def payloadSinCurrent : Json :=
  .obj (.cons "data"
    (.obj (.cons "city" (.str "CDMX") (.cons "country" (.str "Mexico") .nil)))
    .nil)

/-- A fully populated record with key (2024-01-01T00:00:00Z, CDMX). -/
def regA : Registro :=
  { ciudad := .str "CDMX", pais := .str "Mexico", fecha_hora := .str "2024-01-01T00:00:00Z",
    aqi_us := .num 55, aqi_cn := .num 20, contaminante_principal := .str "p2",
    temperatura_c := .num 21, humedad_pct := .num 40, viento_mps := .num 3 }

/-- A record sharing the key of regA but with a different aqi_us. -/
def regB : Registro :=
  { regA with aqi_us := .num 60 }

/-- Inversion of a successful Except bind: both steps succeeded. -/
theorem exceptBindOk {ε α β : Type} {x : Except ε α} {f : α → Except ε β} {b : β}
    (h : x >>= f = Except.ok b) : ∃ a, x = Except.ok a ∧ f a = Except.ok b := by
  cases x with
  | error e => exact Except.noConfusion h
  | ok a => exact ⟨a, rfl, h⟩

/-- The cell-level null test agrees with equality to the null value. -/
theorem esNulo_eq_true (v : Json) : esNulo v = true ↔ v = Json.null := by
  cases v <;> simp [esNulo]

/-- Closed-form characterization of limpiar_y_validar: it errors with the
fixed message exactly when the deduplicated batch has a null critical
field, and otherwise returns the deduplicated batch. -/
theorem limpiar_eq (df : List Registro) :
    limpiar_y_validar df =
      if ∃ r ∈ drop_duplicates df, r.aqi_us = Json.null ∨ r.temperatura_c = Json.null then
        Except.error msgIncompletos
      else Except.ok (drop_duplicates df) := by
  unfold limpiar_y_validar
  by_cases hdf : df = []
  · subst hdf
    simp [drop_duplicates, dedupAux]
  · have h1 : df.isEmpty = false := by
      cases df with
      | nil => exact absurd rfl hdf
      | cons a l => rfl
    rw [h1]
    have hcond : (((drop_duplicates df).any fun r => esNulo r.aqi_us) ||
        ((drop_duplicates df).any fun r => esNulo r.temperatura_c)) = true ↔
        ∃ r ∈ drop_duplicates df, r.aqi_us = Json.null ∨ r.temperatura_c = Json.null := by
      simp only [Bool.or_eq_true, List.any_eq_true, esNulo_eq_true]
      constructor
      · rintro (⟨r, hr, h⟩ | ⟨r, hr, h⟩)
        · exact ⟨r, hr, Or.inl h⟩
        · exact ⟨r, hr, Or.inr h⟩
      · rintro ⟨r, hr, h | h⟩
        · exact Or.inl ⟨r, hr, h⟩
        · exact Or.inr ⟨r, hr, h⟩
    by_cases hex : ∃ r ∈ drop_duplicates df, r.aqi_us = Json.null ∨ r.temperatura_c = Json.null
    · rw [if_neg (by simp), if_pos (hcond.mpr hex), if_pos hex]
    · rw [if_neg (by simp), if_neg (fun h => hex (hcond.mp h)), if_neg hex]

/-- Among the survivors of dedupAux, those with key k are exactly the first
input record with key k, unless k was already seen. -/
theorem dedupAux_filter_eq (k : Json × Json) (l : List Registro) (vistos : List (Json × Json)) :
    (dedupAux vistos l).filter (fun r => decide (clave r = k)) =
      if k ∈ vistos then [] else (l.find? fun r => decide (clave r = k)).toList := by
  induction l generalizing vistos with
  | nil => simp [dedupAux]
  | cons r rs ih =>
    by_cases hv : clave r ∈ vistos
    · rw [dedupAux, if_pos hv, ih]
      by_cases hk : k ∈ vistos
      · rw [if_pos hk, if_pos hk]
      · have hne : (decide (clave r = k)) = false := by
          simp only [decide_eq_false_iff_not]
          exact fun h => hk (h ▸ hv)
        rw [if_neg hk, if_neg hk, List.find?_cons, hne]
    · rw [dedupAux, if_neg hv]
      by_cases hrk : clave r = k
      · subst hrk
        have h1 : (dedupAux (clave r :: vistos) rs).filter
            (fun s => decide (clave s = clave r)) = [] := by
          rw [ih]
          simp
        rw [List.filter_cons, List.find?_cons]
        simp [h1, hv]
      · have hpr : (decide (clave r = k)) = false := by
          simp only [decide_eq_false_iff_not]
          exact hrk
        have hkr : ¬ (k = clave r) := fun h => hrk h.symm
        rw [List.filter_cons, hpr, List.find?_cons, hpr, ih]
        simp [List.mem_cons, hkr]

/-- C2: limpiar_y_validar fails (raising the ValueError whose message names
the two critical fields AQI and temperature) if and only if the
post-deduplication batch contains a record whose aqi_us or temperatura_c
is null; otherwise it returns the cleaned batch, and an empty input batch
passes through unchanged without error. -/
theorem limpiar_y_validar_falla_sii_nulos (df : List Registro) :
    ((limpiar_y_validar df = Except.error msgIncompletos) ↔
      ∃ r ∈ drop_duplicates df, r.aqi_us = Json.null ∨ r.temperatura_c = Json.null) ∧
    ((¬ ∃ r ∈ drop_duplicates df, r.aqi_us = Json.null ∨ r.temperatura_c = Json.null) →
      limpiar_y_validar df = Except.ok (drop_duplicates df)) ∧
    limpiar_y_validar [] = Except.ok [] := by
  refine ⟨?_, ?_, rfl⟩
  · rw [limpiar_eq]
    by_cases hex : ∃ r ∈ drop_duplicates df, r.aqi_us = Json.null ∨ r.temperatura_c = Json.null
    · rw [if_pos hex]
      exact ⟨fun _ => hex, fun _ => rfl⟩
    · rw [if_neg hex]
      exact ⟨fun h => absurd h (by simp), fun h => absurd h hex⟩
  · intro hex
    rw [limpiar_eq, if_neg hex]

/-- C2 witness: on a batch whose only record has a null temperatura_c, the
iff yields the ValueError; on the example two-record batch without nulls,
the cleaned batch is returned. -/
theorem limpiar_y_validar_falla_sii_nulos_testigo :
    limpiar_y_validar [{ regA with temperatura_c := Json.null }] = Except.error msgIncompletos ∧
    limpiar_y_validar [regA, regB] = Except.ok [regA] := by
  constructor
  · exact (limpiar_y_validar_falla_sii_nulos [{ regA with temperatura_c := Json.null }]).1.mpr
      ⟨{ regA with temperatura_c := Json.null }, by decide, Or.inr (by decide)⟩
  · exact (limpiar_y_validar_falla_sii_nulos [regA, regB]).2.1 (by decide)

/-- C3: whenever limpiar_y_validar returns a batch, the survivors carrying
any given (fecha_hora, ciudad) key are exactly the first record of the
input carrying that key, for every input ordering. -/
theorem limpiar_y_validar_conserva_primera (df salida : List Registro)
    (h : limpiar_y_validar df = Except.ok salida) (k : Json × Json) :
    salida.filter (fun r => decide (clave r = k)) =
      (df.find? fun r => decide (clave r = k)).toList := by
  rw [limpiar_eq] at h
  by_cases hex : ∃ r ∈ drop_duplicates df, r.aqi_us = Json.null ∨ r.temperatura_c = Json.null
  · rw [if_pos hex] at h
    exact Except.noConfusion h
  · rw [if_neg hex] at h
    have hs : drop_duplicates df = salida := Except.ok.inj h
    rw [← hs, drop_duplicates, dedupAux_filter_eq]
    simp

/-- C3 witness: for the two records sharing key (2024-01-01T00:00:00Z, CDMX)
but differing in aqi_us, the survivor carrying that key is the first one. -/
theorem limpiar_y_validar_conserva_primera_testigo :
    [regA].filter (fun r => decide (clave r = clave regA)) =
      ([regA, regB].find? fun r => decide (clave r = clave regA)).toList :=
  limpiar_y_validar_conserva_primera [regA, regB] [regA] (by rfl) (clave regA)

/-- C4: whenever navigation of the fixed key path fails with a KeyError
naming key k, transformar_datos does not abort: it returns the empty batch
together with the diagnostic naming k. -/
theorem transformar_clave_faltante (data : Json) (k : String)
    (h : navegar data = Except.error (PyErr.keyError k)) :
    transformar_datos data = Except.ok ([], some k) := by
  unfold transformar_datos
  rw [h]

/-- C4 witness: on the payload whose data node has city and country but no
current key, navigation raises KeyError "current" and transformar_datos
returns the empty batch with a diagnostic naming "current". -/
theorem transformar_clave_faltante_testigo :
    navegar payloadSinCurrent = Except.error (PyErr.keyError "current") ∧
    transformar_datos payloadSinCurrent = Except.ok ([], some "current") :=
  ⟨by rfl, transformar_clave_faltante payloadSinCurrent "current" (by rfl)⟩

/-- C10: transformar_datos yields the empty-batch sentinel only when
navigation fails with a KeyError (whose key the diagnostic names); and on
the file-path string that tarea_transformar actually passes instead of a
decoded payload, the TypeError propagates uncaught. -/
theorem transformar_vacio_solo_por_clave :
    (∀ data res, transformar_datos data = Except.ok res → res.1 = [] →
      ∃ k, res.2 = some k ∧ navegar data = Except.error (PyErr.keyError k)) ∧
    (∀ s : String, s ≠ "" → tarea_transformar (some s) = Except.error PyErr.typeError) := by
  constructor
  · intro data res h h1
    unfold transformar_datos at h
    cases hnav : navegar data with
    | ok r =>
      rw [hnav] at h
      cases h
      simp at h1
    | error e =>
      cases e with
      | keyError k =>
        rw [hnav] at h
        cases h
        exact ⟨k, rfl, rfl⟩
      | typeError =>
        rw [hnav] at h
        exact Except.noConfusion h
  · intro s hs
    show (if s = "" then Except.ok none
      else Except.map some (transformar_datos (Json.str s))) = Except.error PyErr.typeError
    rw [if_neg hs]
    rfl

/-- C10 witness: the missing-key payload gives the empty batch with the
diagnostic naming current, and a concrete raw-file path given to
tarea_transformar makes the run raise TypeError. -/
theorem transformar_vacio_solo_por_clave_testigo :
    (∃ k, (([] : List Registro), some "current").2 = some k ∧
      navegar payloadSinCurrent = Except.error (PyErr.keyError k)) ∧
    tarea_transformar (some "data/raw/air_quality_20240301_120000.json") =
      Except.error PyErr.typeError :=
  ⟨transformar_vacio_solo_por_clave.1 payloadSinCurrent ([], some "current") (by rfl) rfl,
   transformar_vacio_solo_por_clave.2 "data/raw/air_quality_20240301_120000.json" (by decide)⟩

/-- The record built by transformar_datos from payloadMexicoCity. -/
def registroMexicoCity : Registro :=
  { ciudad := .str "Mexico City", pais := .str "Mexico",
    fecha_hora := .str "2024-03-01T12:00:00.000Z", aqi_us := .num 55, aqi_cn := .num 20,
    contaminante_principal := .str "p2", temperatura_c := .num 21, humedad_pct := .num 40,
    viento_mps := .num 3 }

/-- C1 counterexample: on a well-formed payload whose source city is the
alias "Mexico City", the constructed record keeps the city "Mexico City",
which is not the canonical label "CDMX"; no canonicalization happens. -/
theorem transformar_no_canonicaliza_ciudad :
    (transformar_datos payloadMexicoCity).toOption.map (fun p => p.1.map Registro.ciudad) =
      some [Json.str "Mexico City"] ∧
    Json.str "Mexico City" ≠ Json.str "CDMX" := by
  refine ⟨rfl, ?_⟩
  decide

/-- C1 amended: transformar_datos copies the source city name verbatim
into the record (so "CDMX" stays "CDMX" and any other city name, aliases
of CDMX included, passes through unchanged; the pass-through is trivially
idempotent), and a successful parse yields exactly one record and no
diagnostic. -/
theorem transformar_ciudad_textual (data : Json) (r : Registro) (resto : List Registro)
    (d : Option String) (h : transformar_datos data = Except.ok (r :: resto, d)) :
    (getItem data "data").bind (fun dd => getItem dd "city") = Except.ok r.ciudad ∧
      resto = [] ∧ d = none := by
  unfold transformar_datos at h
  cases hnav : navegar data with
  | error e =>
    rw [hnav] at h
    cases e <;> simp at h
  | ok reg =>
    rw [hnav] at h
    simp only [Except.ok.injEq, Prod.mk.injEq, List.cons.injEq] at h
    obtain ⟨⟨hr, hresto⟩, hd⟩ := h
    refine ⟨?_, hresto.symm, hd.symm⟩
    subst hr
    unfold navegar at hnav
    obtain ⟨dd, h1, hnav⟩ := exceptBindOk hnav
    obtain ⟨c, h2, hnav⟩ := exceptBindOk hnav
    obtain ⟨pais, h3, hnav⟩ := exceptBindOk hnav
    obtain ⟨current, h4, hnav⟩ := exceptBindOk hnav
    obtain ⟨cont, h5, hnav⟩ := exceptBindOk hnav
    obtain ⟨ts, h6, hnav⟩ := exceptBindOk hnav
    obtain ⟨clima, h7, hnav⟩ := exceptBindOk hnav
    obtain ⟨aqius, h8, hnav⟩ := exceptBindOk hnav
    obtain ⟨aqicn, h9, hnav⟩ := exceptBindOk hnav
    obtain ⟨mainus, h10, hnav⟩ := exceptBindOk hnav
    obtain ⟨tp, h11, hnav⟩ := exceptBindOk hnav
    obtain ⟨hu, h12, hnav⟩ := exceptBindOk hnav
    obtain ⟨ws, h13, hnav⟩ := exceptBindOk hnav
    have hreg := Except.ok.inj hnav
    rw [h1]
    show getItem dd "city" = Except.ok reg.ciudad
    rw [h2, ← hreg]

/-- C1 amended witness: on the Mexico City payload, the record city is
exactly the source value at data.city. -/
theorem transformar_ciudad_textual_testigo :
    (getItem payloadMexicoCity "data").bind (fun dd => getItem dd "city") =
      Except.ok registroMexicoCity.ciudad ∧
    ([] : List Registro) = [] ∧ (none : Option String) = none :=
  transformar_ciudad_textual payloadMexicoCity registroMexicoCity [] none (by rfl)

/-- C5: with a successful fetch, the run crashes with the TypeError from
the parse task before appending any row or writing any file, and no run of
flujo_etl ever executes a validation stage: the flow defines no task that
calls limpiar_y_validar. -/
theorem flujo_etl_sin_etapa_validar :
    flujo_etl (some "data/raw/air_quality_20240301_120000.json")
        (Except.ok ()) (Except.ok ()) (Except.ok ()) =
      { etapas := [Etapa.extraer, Etapa.transformar], filas := 0, archivos := 0,
        excepcion := some PyErr.typeError } ∧
    (∀ ruta to_sql to_csv to_parquet,
      Etapa.validar ∉ (flujo_etl ruta to_sql to_csv to_parquet).etapas) := by
  constructor
  · rfl
  · intro ruta to_sql to_csv to_parquet
    unfold flujo_etl
    cases h : tarea_transformar ruta with
    | error e =>
      show Etapa.validar ∉ [Etapa.extraer, Etapa.transformar]
      decide
    | ok df =>
      show Etapa.validar ∉ [Etapa.extraer, Etapa.transformar, Etapa.cargar]
      decide

/-- C6 counterexample: a failing table write and a failing parquet write
are both swallowed: no exception reaches the caller of guardar_en_sql or
exportar_csv_parquet, contradicting the claim that a SinkError surfaces. -/
theorem guardar_en_sql_no_propaga_error :
    (guardar_en_sql [regA] "calidad_aire" (Except.error "database is locked")).propagada = none ∧
    (exportar_csv_parquet [regA] "calidad_aire" (Except.ok ())
        (Except.error "No engine for parquet")).propagada = none :=
  ⟨rfl, rfl⟩

/-- C6 amended: every write outcome leaves guardar_en_sql and
exportar_csv_parquet without a propagated exception; on failure each only
prints a diagnostic that preserves the underlying cause, and the run
continues as if the write had succeeded. -/
theorem errores_sink_impresos_no_propagados (df : List Registro)
    (tabla nombre e : String) (w cs pq : Except String Unit) :
    (guardar_en_sql df tabla w).propagada = none ∧
    (exportar_csv_parquet df nombre cs pq).propagada = none ∧
    (guardar_en_sql df tabla (Except.error e)).impreso = "Error al guardar en SQL: " ++ e ∧
    (exportar_csv_parquet df nombre (Except.error e) pq).impreso = "Error al exportar: " ++ e ∧
    (exportar_csv_parquet df nombre (Except.ok ()) (Except.error e)).impreso =
      "Error al exportar: " ++ e := by
  refine ⟨?_, ?_, rfl, rfl, rfl⟩
  · cases w <;> rfl
  · cases cs with
    | error e1 => rfl
    | ok u => cases pq <;> rfl

/-- C7 counterexample: guardar_en_sql has no return statement, so even on
an empty batch its Python return value is None, not 0. -/
theorem guardar_en_sql_retorna_none :
    (guardar_en_sql [] "calidad_aire" (Except.ok ())).retorno = none ∧
    (none : Option Nat) ≠ some 0 :=
  ⟨rfl, by decide⟩

/-- C7 amended: calling guardar_en_sql with an empty batch appends zero
rows, raises nothing to the caller, and returns None (not 0), for every
write outcome. -/
theorem guardar_en_sql_vacio_noop (tabla : String) (w : Except String Unit) :
    (guardar_en_sql [] tabla w).filasInsertadas = 0 ∧
    (guardar_en_sql [] tabla w).propagada = none ∧
    (guardar_en_sql [] tabla w).retorno = none := by
  cases w <;> exact ⟨rfl, rfl, rfl⟩

/-- C8 counterexample: the files written by exportar_csv_parquet are named
nombre ++ ".csv" and nombre ++ ".parquet" with no timestamp component, so
the csv name cannot have the claimed form with a YYYYMMDD_HHMMSS (length
15) timestamp. -/
theorem exportar_nombres_sin_timestamp :
    (exportar_csv_parquet [regA] "calidad_aire" (Except.ok ()) (Except.ok ())).archivos =
      [⟨"calidad_aire.csv", [regA]⟩, ⟨"calidad_aire.parquet", [regA]⟩] ∧
    ¬ ∃ ts : String, ts.length = 15 ∧
      "calidad_aire.csv" = "calidad_aire" ++ "_" ++ ts ++ ".csv" := by
  refine ⟨rfl, ?_⟩
  rintro ⟨ts, hlen, heq⟩
  have hcontra := congrArg String.length heq
  rw [String.length_append, String.length_append, String.length_append, hlen] at hcontra
  revert hcontra
  decide

/-- C8 amended: exportar_csv_parquet writes one csv and one parquet file
with identical row content under the fixed names nombre ++ ".csv" and
nombre ++ ".parquet" (no timestamp, so successive runs overwrite), while
guardar_datos_procesados derives prefijo ++ "_" ++ ts ++ extension from
the local-clock timestamp ts, again one csv and one parquet with identical
row content. -/
theorem nombres_y_contenido_exportacion (df : List Registro)
    (nombre prefijo ts : String) (fp : Except String Unit) :
    (exportar_csv_parquet df nombre (Except.ok ()) (Except.ok ())).archivos =
      [⟨nombre ++ ".csv", df⟩, ⟨nombre ++ ".parquet", df⟩] ∧
    (guardar_datos_procesados df prefijo ts (Except.ok ()) fp).1.archivos =
      [⟨prefijo ++ "_" ++ ts ++ ".csv", df⟩, ⟨prefijo ++ "_" ++ ts ++ ".parquet", df⟩] :=
  ⟨rfl, rfl⟩

/-- C9 counterexample: when the parquet write of exportar_csv_parquet
fails, there is exactly one attempt (no fallback engine) and no exception
surfaces, contradicting the claimed retry-then-SinkError policy. -/
theorem exportar_sin_motor_de_respaldo :
    (exportar_csv_parquet [regA] "calidad_aire" (Except.ok ())
        (Except.error "pyarrow is not installed")).intentosParquet = 1 ∧
    (exportar_csv_parquet [regA] "calidad_aire" (Except.ok ())
        (Except.error "pyarrow is not installed")).propagada = none :=
  ⟨rfl, rfl⟩

/-- C9 amended: only guardar_datos_procesados has the engine fallback:
when pyarrow succeeds fastparquet is never needed and nothing surfaces;
when pyarrow fails it prints a warning naming the pyarrow error and tries
fastparquet; an exception surfaces exactly when both engines fail, and it
is the fastparquet one. exportar_csv_parquet instead makes at most one
parquet attempt and never propagates an exception. -/
theorem respaldo_parquet_guardar_datos (df : List Registro)
    (prefijo ts e1 : String) (fp cs pq : Except String Unit) (nombre : String) :
    (guardar_datos_procesados df prefijo ts (Except.ok ()) fp).2 = none ∧
    (guardar_datos_procesados df prefijo ts (Except.error e1) (Except.ok ())).2 = none ∧
    (guardar_datos_procesados df prefijo ts (Except.error e1) (Except.ok ())).1.advertencia =
      some ("Error con pyarrow: " ++ e1 ++ ". Intentando con fastparquet...") ∧
    (∀ e2, (guardar_datos_procesados df prefijo ts (Except.error e1) (Except.error e2)).2 =
      some e2) ∧
    (exportar_csv_parquet df nombre cs pq).intentosParquet ≤ 1 ∧
    (exportar_csv_parquet df nombre cs pq).propagada = none := by
  refine ⟨?_, rfl, rfl, fun e2 => rfl, ?_, ?_⟩
  · cases fp <;> rfl
  · cases cs with
    | error e => exact Nat.zero_le 1
    | ok u => cases pq <;> exact Nat.le_refl 1
  · cases cs with
    | error e => rfl
    | ok u => cases pq <;> rfl
